import Mathlib

/-!
Verification of the Multimodel-AI-Bot backend pipeline.

The development shallowly embeds the two Express routes and their service
layer:

* `src/backend/src/services/groq.service.ts` (`generateGroqResponse`)
* `src/backend/src/services/vision.service.ts`
  (`encodeImageToBase64`, `analyzeImage`)
* `src/backend/src/api/chat.routes.ts` (`POST /message`)
* `src/backend/src/api/vision.routes.ts` (`POST /analyze`)

JavaScript runtime values reaching the routes are modelled by `JSValue`
with JavaScript truthiness; the filesystem is an association list from
paths to byte lists; the Groq SDK call is an oracle function from the
outbound request to either an error or a completion object, so that
theorems quantify over all endpoint behaviours.  Each route returns, next
to the HTTP response, the list of service invocations it performed, so
that claims of the form "the client is not called" are statable.
-/

/-- JavaScript values as they can appear in a parsed JSON request body
(plus `undefined` for an absent property and `NaN`, which JSON itself
cannot encode but JavaScript code must still handle). -/
inductive JSValue where
  | undefined
  | null
  | bool (b : Bool)
  | num (q : Rat)
  | nan
  | str (s : String)
  | arr (elems : List JSValue)
  | obj (fields : List (String × JSValue))

/-- JavaScript truthiness: `undefined`, `null`, `false`, `0`, `NaN` and
the empty string are falsy; every other value (any object or array
included) is truthy. -/
def truthy : JSValue → Bool
  | .undefined => false
  | .null => false
  | .bool b => b
  | .num q => if q = 0 then false else true
  | .nan => false
  | .str s => if s = "" then false else true
  | .arr _ => true
  | .obj _ => true

/-- Property access `body.key` on a parsed JSON object: the last binding
of the key wins (as in `JSON.parse`), an absent key yields `undefined`. -/
def jsLookupFirst : List (String × JSValue) → String → JSValue
  | [], _ => .undefined
  | (k, v) :: rest, key => if k = key then v else jsLookupFirst rest key

/-- Lookup with JavaScript object semantics (later duplicate keys shadow
earlier ones). -/
def jsLookup (fields : List (String × JSValue)) (key : String) : JSValue :=
  jsLookupFirst fields.reverse key

/-- JavaScript `o || d` specialised to an optional string `o` (an
optional-chaining result): `undefined` and the empty string are replaced
by the default, any other string passes through. -/
def jsOrStr (o : Option String) (d : String) : String :=
  match o with
  | none => d
  | some s => if s = "" then d else s

/-- A chat-completion message as returned by the endpoint; `content` is
`none` when the field is `null` or absent. -/
structure GroqMessage where
  content : Option String

/-- One candidate completion. -/
structure GroqChoice where
  message : Option GroqMessage

/-- The completion object returned by `groq.chat.completions.create`. -/
structure Completion where
  choices : List GroqChoice

/-- The optional-chaining access `completion.choices[0]?.message?.content`. -/
def contentOf (c : Completion) : Option String :=
  c.choices.head? >>= fun ch => ch.message >>= fun m => m.content

/-- An error raised by the Groq SDK (transport, auth or API failure);
`detail` is the provider-side information it carries. -/
structure GroqError where
  detail : String

/-- A role-tagged message of the outbound text-completion request. -/
structure ChatMessage where
  role : String
  content : JSValue

/-- The outbound request built by `generateGroqResponse`. -/
structure ChatRequest where
  messages : List ChatMessage
  model : String

/-- The request `generateGroqResponse` sends: a single user message whose
content is the raw `prompt` value, model `llama-3.3-70b-versatile`
(temperature 0.7 and `max_tokens` 1024 are fixed and carry no
information, so they are omitted from the embedding). -/
def buildChatRequest (prompt : JSValue) : ChatRequest :=
  { messages := [{ role := "user", content := prompt }]
    model := "llama-3.3-70b-versatile" }

/-- `generateGroqResponse` of `groq.service.ts`: one call to the endpoint
(`api`); on failure the provider error is swallowed and a fixed
`Error("Failed to generate AI response")` is thrown; on success
`choices[0]?.message?.content || "No response generated."`. -/
def generateGroqResponse (api : ChatRequest → Except GroqError Completion)
    (prompt : JSValue) : Except String String :=
  match api (buildChatRequest prompt) with
  | .error _ => .error "Failed to generate AI response"
  | .ok completion => .ok (jsOrStr (contentOf completion) "No response generated.")

/-- One part of a multimodal message content list. -/
inductive ContentPart where
  | text (text : String)
  | imageUrl (url : String)

/-- The outbound request built by `analyzeImage`. -/
structure VisionRequest where
  parts : List ContentPart
  model : String

/-- The multimodal request `analyzeImage` sends: the text prompt followed
by an `image_url` part whose URL is the fixed-JPEG data URI
`data:image/jpeg;base64,` ++ payload, model
`meta-llama/llama-4-scout-17b-16e-instruct` (temperature and token bound
again omitted). -/
def buildVisionRequest (imageBase64 prompt : String) : VisionRequest :=
  { parts := [.text prompt, .imageUrl ("data:image/jpeg;base64," ++ imageBase64)]
    model := "meta-llama/llama-4-scout-17b-16e-instruct" }

/-- The image references (URLs of `image_url` parts) of an outbound
multimodal request. -/
def imageRefs (r : VisionRequest) : List String :=
  r.parts.filterMap fun part =>
    match part with
    | .imageUrl u => some u
    | _ => none

/-- `analyzeImage` of `vision.service.ts`: builds the multimodal request,
calls the endpoint once; on failure throws the fixed
`Error("Failed to analyze image")`; on success
`choices[0]?.message?.content || "No analysis generated."`.  In the
source `prompt` has the default value `"What's in this image?"`; the
route always passes a prompt explicitly, so the parameter is required
here. -/
def analyzeImage (api : VisionRequest → Except GroqError Completion)
    (imageBase64 : String) (prompt : String) : Except String String :=
  match api (buildVisionRequest imageBase64 prompt) with
  | .error _ => .error "Failed to analyze image"
  | .ok completion => .ok (jsOrStr (contentOf completion) "No analysis generated.")

/-- The RFC 4648 base64 alphabet, in index order. -/
def b64Alphabet : List Char :=
  "ABCDEFGHIJKLMNOPQRSTUVWXYZabcdefghijklmnopqrstuvwxyz0123456789+/".toList

/-- The base64 digit of a 6-bit group. -/
def b64Char (n : Nat) : Char :=
  b64Alphabet.getD n 'A'

/-- Position of a character in a list of characters. -/
def charIndex : List Char → Char → Option Nat
  | [], _ => none
  | a :: as, c => if a = c then some 0 else (charIndex as c).map (· + 1)

/-- The 6-bit group a base64 digit stands for, `none` for characters
outside the alphabet (padding included). -/
def b64Index (c : Char) : Option Nat :=
  charIndex b64Alphabet c

/-- Standard padded base64 of a byte sequence, three bytes at a time, as
`Buffer.toString` with encoding `base64` produces it in Node. -/
def b64EncodeChars : List Nat → List Char
  | [] => []
  | [b1] =>
    [b64Char (b1 / 4), b64Char (b1 % 4 * 16), '=', '=']
  | [b1, b2] =>
    [b64Char (b1 / 4), b64Char (b1 % 4 * 16 + b2 / 16), b64Char (b2 % 16 * 4), '=']
  | b1 :: b2 :: b3 :: rest =>
    b64Char (b1 / 4) :: b64Char (b1 % 4 * 16 + b2 / 16) ::
      b64Char (b2 % 16 * 4 + b3 / 64) :: b64Char (b3 % 64) :: b64EncodeChars rest

/-- Base64 of a byte sequence as a string. -/
def base64Encode (bytes : List Nat) : String :=
  String.mk (b64EncodeChars bytes)

/-- Base64 decoding of a character sequence, four digits at a time, used
here only as the specification-side inverse certifying that
`base64Encode` loses no information about the file content. -/
def b64DecodeChars : List Char → Option (List Nat)
  | [] => some []
  | c1 :: c2 :: c3 :: c4 :: rest =>
    (match b64Index c1, b64Index c2 with
     | some n1, some n2 =>
       if c3 = '=' ∧ c4 = '=' ∧ rest = [] then
         some [n1 * 4 + n2 / 16]
       else
         match b64Index c3 with
         | some n3 =>
           if c4 = '=' ∧ rest = [] then
             some [n1 * 4 + n2 / 16, n2 % 16 * 16 + n3 / 4]
           else
             match b64Index c4, b64DecodeChars rest with
             | some n4, some bs =>
               some ((n1 * 4 + n2 / 16) :: (n2 % 16 * 16 + n3 / 4) ::
                 (n3 % 4 * 64 + n4) :: bs)
             | _, _ => none
         | none => none
     | _, _ => none)
  | _ => none

/-- Base64 decoding of a string. -/
def base64Decode (s : String) : Option (List Nat) :=
  b64DecodeChars s.toList

/-- The filesystem visible to the backend process: a finite map from
paths to byte contents (bytes are naturals below 256). -/
abbrev FS := List (String × List Nat)

/-- Content of the file at a path, `none` when no such file exists. -/
def fsRead : FS → String → Option (List Nat)
  | [], _ => none
  | (q, bytes) :: rest, p => if q = p then some bytes else fsRead rest p

/-- `fs.unlink`: the file at the path is removed; when the path does not
exist the error is only logged, so the embedding is plain removal. -/
def fsUnlink (fs : FS) (p : String) : FS :=
  fs.filter fun kv => kv.1 != p

/-- A filesystem error as `fs.readFileSync` raises it. -/
inductive FsError where
  | enoent (path : String)

/-- `fs.readFileSync`: the whole content of the file, or a filesystem
error; the call is synchronous (the embedding is a pure function of the
filesystem state, with no interleaving point). -/
def readFileSync (fs : FS) (filePath : String) : Except FsError (List Nat) :=
  match fsRead fs filePath with
  | some bytes => .ok bytes
  | none => .error (.enoent filePath)

/-- `encodeImageToBase64` of `vision.service.ts`: read the whole file
synchronously and base64-encode it; a read error propagates unmodified
(the function has no handler). -/
def encodeImageToBase64 (fs : FS) (filePath : String) : Except FsError String :=
  match readFileSync fs filePath with
  | .ok imageFile => .ok (base64Encode imageFile)
  | .error e => .error e

/-- An HTTP response body as the routes produce it via `res.json`. -/
inductive ResponseBody where
  | errorMsg (error : String)
  | replyBody (reply : String) (timestamp : String)
  | analysisBody (analysis : String) (timestamp : String)

/-- An HTTP response: status code and JSON body. -/
structure HttpResponse where
  status : Nat
  body : ResponseBody

/-- Result of the text route: the response plus the list of outbound
text-model requests the route performed. -/
structure MessageResult where
  response : HttpResponse
  groqCalls : List ChatRequest

/-- `POST /message` of `chat.routes.ts`: reject falsy `message` with
`400 {error: "Message is required"}` before any model call; otherwise
dispatch the raw `message` value to `generateGroqResponse` and answer
`200 {reply, timestamp}` on success or
`500 {error: "Failed to process your message"}` when the service throws. -/
def postMessage (api : ChatRequest → Except GroqError Completion)
    (body : List (String × JSValue)) (now : String) : MessageResult :=
  let message := jsLookup body "message"
  if truthy message = false then
    { response := { status := 400, body := .errorMsg "Message is required" }
      groqCalls := [] }
  else
    match generateGroqResponse api message with
    | .ok reply =>
      { response := { status := 200, body := .replyBody reply now }
        groqCalls := [buildChatRequest message] }
    | .error _ =>
      { response := { status := 500, body := .errorMsg "Failed to process your message" }
        groqCalls := [buildChatRequest message] }

/-- The multer-provided upload record (`req.file`): the temporary path
the binary payload was persisted to. -/
structure UploadedFile where
  path : String

/-- Result of the vision route: the response, the filesystem after the
route ran, and the lists of encoder and vision-model invocations. -/
structure AnalyzeResult where
  response : HttpResponse
  fsAfter : FS
  encoderCalls : List String
  visionCalls : List VisionRequest

/-- The default prompt of the vision path. -/
def defaultPrompt : String := "What\x27s in this image?"

/-- `POST /analyze` of `vision.routes.ts`: reject a missing upload with
`400 {error: "No image uploaded"}` before touching encoder or model;
otherwise take `req.body.prompt || defaultPrompt` (multer parses
multipart text fields as strings, `none` models an absent field), encode
the temporary file, dispatch to `analyzeImage`, unlink the temporary
file, and answer `200 {analysis, timestamp}` — any exception from encode
or dispatch jumps to the catch handler, which answers
`500 {error: "Failed to analyze image"}` without reaching the unlink
statement. -/
def postAnalyze (api : VisionRequest → Except GroqError Completion)
    (fs : FS) (file : Option UploadedFile) (promptField : Option String)
    (now : String) : AnalyzeResult :=
  match file with
  | none =>
    { response := { status := 400, body := .errorMsg "No image uploaded" }
      fsAfter := fs, encoderCalls := [], visionCalls := [] }
  | some f =>
    let prompt := jsOrStr promptField defaultPrompt
    match encodeImageToBase64 fs f.path with
    | .error _ =>
      { response := { status := 500, body := .errorMsg "Failed to analyze image" }
        fsAfter := fs, encoderCalls := [f.path], visionCalls := [] }
    | .ok imageBase64 =>
      match analyzeImage api imageBase64 prompt with
      | .error _ =>
        { response := { status := 500, body := .errorMsg "Failed to analyze image" }
          fsAfter := fs, encoderCalls := [f.path]
          visionCalls := [buildVisionRequest imageBase64 prompt] }
      | .ok analysis =>
        { response := { status := 200, body := .analysisBody analysis now }
          fsAfter := fsUnlink fs f.path, encoderCalls := [f.path]
          visionCalls := [buildVisionRequest imageBase64 prompt] }

/-- A deterministically failing text endpoint (simulated transport error). -/
def failChatApi : ChatRequest → Except GroqError Completion :=
  fun _ => .error { detail := "socket hang up" }

/-- A succeeding text endpoint returning one candidate with content. -/
def okChatApi : ChatRequest → Except GroqError Completion :=
  fun _ => .ok { choices := [{ message := some { content := some "hello there" } }] }

/-- A text endpoint returning a completion with an empty choices list. -/
def emptyChatApi : ChatRequest → Except GroqError Completion :=
  fun _ => .ok { choices := [] }

/-- A deterministically failing vision endpoint. -/
def failVisionApi : VisionRequest → Except GroqError Completion :=
  fun _ => .error { detail := "401 invalid api key" }

/-- A succeeding vision endpoint returning one candidate with content. -/
def okVisionApi : VisionRequest → Except GroqError Completion :=
  fun _ => .ok { choices := [{ message := some { content := some "a cat" } }] }

/-- The eight PNG signature bytes, standing in for a PNG upload. -/
def pngBytes : List Nat := [137, 80, 78, 71, 13, 10, 26, 10]

/-- A filesystem holding one temporary PNG upload. -/
def pngFs : FS := [("uploads/tmp1", pngBytes)]

/-- Decoding a base64 digit recovers the 6-bit group it encodes. -/
theorem b64Index_b64Char (n : Nat) (hn : n < 64) : b64Index (b64Char n) = some n := by
  have h : (List.range 64).all (fun n => b64Index (b64Char n) == some n) = true := by decide
  simpa using List.all_eq_true.mp h n (List.mem_range.mpr hn)

/-- No base64 digit is the padding character. -/
theorem b64Char_ne_pad (n : Nat) (hn : n < 64) : b64Char n ≠ '=' := by
  have h : (List.range 64).all (fun n => b64Char n != '=') = true := by decide
  simpa using List.all_eq_true.mp h n (List.mem_range.mpr hn)

/-- Base64 encoding of byte sequences is lossless: decoding recovers the
exact byte list. -/
theorem b64DecodeChars_b64EncodeChars (bs : List Nat) (h : ∀ b ∈ bs, b < 256) :
    b64DecodeChars (b64EncodeChars bs) = some bs := by
  induction bs using b64EncodeChars.induct with
  | case1 => rfl
  | case2 b1 =>
    have hb1 : b1 < 256 := h b1 (by simp)
    have e1 := b64Index_b64Char (b1 / 4) (by omega)
    have e2 := b64Index_b64Char (b1 % 4 * 16) (by omega)
    simp [b64EncodeChars, b64DecodeChars, e1, e2]
    omega
  | case3 b1 b2 =>
    have hb1 : b1 < 256 := h b1 (by simp)
    have hb2 : b2 < 256 := h b2 (by simp)
    have e1 := b64Index_b64Char (b1 / 4) (by omega)
    have e2 := b64Index_b64Char (b1 % 4 * 16 + b2 / 16) (by omega)
    have e3 := b64Index_b64Char (b2 % 16 * 4) (by omega)
    have ne3 := b64Char_ne_pad (b2 % 16 * 4) (by omega)
    simp [b64EncodeChars, b64DecodeChars, e1, e2, e3, ne3]
    omega
  | case4 b1 b2 b3 rest ih =>
    have hb1 : b1 < 256 := h b1 (by simp)
    have hb2 : b2 < 256 := h b2 (by simp)
    have hb3 : b3 < 256 := h b3 (by simp)
    have hrest : ∀ b ∈ rest, b < 256 := fun b hb => h b (by simp [hb])
    have e1 := b64Index_b64Char (b1 / 4) (by omega)
    have e2 := b64Index_b64Char (b1 % 4 * 16 + b2 / 16) (by omega)
    have e3 := b64Index_b64Char (b2 % 16 * 4 + b3 / 64) (by omega)
    have e4 := b64Index_b64Char (b3 % 64) (by omega)
    have ne3 := b64Char_ne_pad (b2 % 16 * 4 + b3 / 64) (by omega)
    have ne4 := b64Char_ne_pad (b3 % 64) (by omega)
    simp [b64EncodeChars, b64DecodeChars, e1, e2, e3, e4, ne3, ne4, ih hrest]
    refine ⟨by omega, by omega, by omega⟩

/-- String-level statement of losslessness. -/
theorem base64Decode_base64Encode (bs : List Nat) (h : ∀ b ∈ bs, b < 256) :
    base64Decode (base64Encode bs) = some bs := by
  simpa [base64Decode, base64Encode] using b64DecodeChars_b64EncodeChars bs h

/-- After `fsUnlink fs p` the path `p` no longer resolves. -/
theorem fsRead_fsUnlink (fs : FS) (p : String) : fsRead (fsUnlink fs p) p = none := by
  induction fs with
  | nil => rfl
  | cons kv rest ih =>
    rcases kv with ⟨q, bytes⟩
    by_cases hq : q = p
    · simpa [fsUnlink, List.filter_cons, hq] using ih
    · simp only [fsUnlink, List.filter_cons] at ih ⊢
      simp [hq, fsRead, ih]

/-- The JavaScript default `o || d` never yields the empty string when
the default is non-empty. -/
theorem jsOrStr_ne_empty (o : Option String) (d : String) (hd : d ≠ "") :
    jsOrStr o d ≠ "" := by
  cases o with
  | none => simpa [jsOrStr] using hd
  | some s =>
    by_cases hs : s = ""
    · simpa [jsOrStr, hs] using hd
    · simp [jsOrStr, hs]

/-- C3: every text-path request whose `message` field is absent, `null`,
or the empty string is answered with exactly
`400 {error: "Message is required"}`, and the model invocation client is
not called (the list of outbound text-model requests is empty). -/
theorem c3_missing_message_rejected (api : ChatRequest → Except GroqError Completion)
    (body : List (String × JSValue)) (now : String)
    (h : jsLookup body "message" = .undefined ∨ jsLookup body "message" = .null ∨
      jsLookup body "message" = .str "") :
    postMessage api body now =
      { response := { status := 400, body := .errorMsg "Message is required" }
        groqCalls := [] } := by
  rcases h with h | h | h <;> simp [postMessage, h, truthy]

/-- C3 witness: a concrete request with `message: null` is rejected. -/
theorem c3_missing_message_rejected_witness :
    postMessage okChatApi [("message", JSValue.null)] "2026-01-01T00:00:00Z" =
      { response := { status := 400, body := .errorMsg "Message is required" }
        groqCalls := [] } :=
  c3_missing_message_rejected okChatApi [("message", JSValue.null)]
    "2026-01-01T00:00:00Z" (Or.inr (Or.inl rfl))

/-- C4: every vision-path request without an attached image file is
answered with exactly `400 {error: "No image uploaded"}`; the filesystem
is untouched and neither the encoder nor the vision model client is
invoked (both invocation lists are empty). -/
theorem c4_no_image_rejected (api : VisionRequest → Except GroqError Completion)
    (fs : FS) (promptField : Option String) (now : String) :
    postAnalyze api fs none promptField now =
      { response := { status := 400, body := .errorMsg "No image uploaded" }
        fsAfter := fs, encoderCalls := [], visionCalls := [] } := rfl

/-- C10: text-path validation is JavaScript truthiness of `message` and
nothing else: a falsy `message` (absent, `null`, empty string, `0`,
`false`, `NaN`) is answered with `400 {error: "Message is required"}`
and nothing is dispatched, while every truthy value of any JSON type
(non-zero number, non-empty string, any object or array) is dispatched
to the model client as the raw value, with no string-type check. -/
theorem c10_truthiness_validation :
    (∀ (api : ChatRequest → Except GroqError Completion) body now,
       truthy (jsLookup body "message") = false →
       postMessage api body now =
         { response := { status := 400, body := .errorMsg "Message is required" }
           groqCalls := [] }) ∧
    (∀ (api : ChatRequest → Except GroqError Completion) body now,
       truthy (jsLookup body "message") = true →
       (postMessage api body now).groqCalls =
         [buildChatRequest (jsLookup body "message")]) ∧
    truthy .undefined = false ∧ truthy .null = false ∧ truthy (.str "") = false ∧
    truthy (.num 0) = false ∧ truthy (.bool false) = false ∧ truthy .nan = false ∧
    (∀ q : Rat, q ≠ 0 → truthy (.num q) = true) ∧
    (∀ s : String, s ≠ "" → truthy (.str s) = true) ∧
    (∀ fields, truthy (.obj fields) = true) ∧
    (∀ elems, truthy (.arr elems) = true) := by
  refine ⟨?_, ?_, rfl, rfl, rfl, by simp [truthy], rfl, rfl, ?_, ?_, fun _ => rfl, fun _ => rfl⟩
  · intro api body now h
    simp [postMessage, h]
  · intro api body now h
    cases hg : generateGroqResponse api (jsLookup body "message") <;>
      simp [postMessage, h, hg]
  · intro q hq
    simp [truthy, hq]
  · intro s hs
    simp [truthy, hs]

/-- C10 witness: the truthy non-string value `{"message": {}}` (an empty
object) is dispatched raw to the model client. -/
theorem c10_truthiness_validation_witness :
    (postMessage okChatApi [("message", JSValue.obj [])] "t").groqCalls =
      [buildChatRequest (JSValue.obj [])] :=
  c10_truthiness_validation.2.1 okChatApi [("message", JSValue.obj [])] "t" rfl

/-- C2: whenever the model invocation client fails — for every provider
error `e`, whatever detail it carries — the text pipeline answers exactly
`500 {error: "Failed to process your message"}` and the vision pipeline
exactly `500 {error: "Failed to analyze image"}`; since the response is
this fixed constant for all `e`, the underlying error detail never
appears in either response body. -/
theorem c2_inference_failure_collapsed :
    (∀ (capi : ChatRequest → Except GroqError Completion) body now (e : GroqError),
       truthy (jsLookup body "message") = true →
       capi (buildChatRequest (jsLookup body "message")) = .error e →
       (postMessage capi body now).response =
         { status := 500, body := .errorMsg "Failed to process your message" }) ∧
    (∀ (vapi : VisionRequest → Except GroqError Completion) fs (f : UploadedFile)
       promptField now (e : GroqError) b,
       encodeImageToBase64 fs f.path = .ok b →
       vapi (buildVisionRequest b (jsOrStr promptField defaultPrompt)) = .error e →
       (postAnalyze vapi fs (some f) promptField now).response =
         { status := 500, body := .errorMsg "Failed to analyze image" }) := by
  constructor
  · intro capi body now e htru herr
    simp [postMessage, htru, generateGroqResponse, herr]
  · intro vapi fs f promptField now e b henc herr
    simp [postAnalyze, henc, analyzeImage, herr]

/-- C2 witness: a deterministically failing endpoint yields exactly the
two fixed 500 bodies on concrete requests. -/
theorem c2_inference_failure_collapsed_witness :
    (postMessage failChatApi [("message", JSValue.str "hi")] "t").response =
      { status := 500, body := .errorMsg "Failed to process your message" } ∧
    (postAnalyze failVisionApi pngFs (some { path := "uploads/tmp1" })
        (some "describe") "t").response =
      { status := 500, body := .errorMsg "Failed to analyze image" } :=
  ⟨c2_inference_failure_collapsed.1 failChatApi [("message", JSValue.str "hi")] "t"
      { detail := "socket hang up" } rfl rfl,
   c2_inference_failure_collapsed.2 failVisionApi pngFs { path := "uploads/tmp1" }
      (some "describe") "t" { detail := "401 invalid api key" } "iVBORw0KGgo=" rfl rfl⟩

/-- C5: for every base64 payload `b` handed to the vision client, the
outbound multimodal request (the one and only vision-client invocation of
the request) carries exactly one image reference, and it is exactly the
string `data:image/jpeg;base64,` followed by `b` — for every payload,
hence independent of the original image's actual format. -/
theorem c5_jpeg_data_uri (vapi : VisionRequest → Except GroqError Completion)
    (fs : FS) (f : UploadedFile) (promptField : Option String) (now : String)
    (b : String) (henc : encodeImageToBase64 fs f.path = .ok b) :
    (postAnalyze vapi fs (some f) promptField now).visionCalls =
      [buildVisionRequest b (jsOrStr promptField defaultPrompt)] ∧
    imageRefs (buildVisionRequest b (jsOrStr promptField defaultPrompt)) =
      ["data:image/jpeg;base64," ++ b] := by
  refine ⟨?_, rfl⟩
  cases hv : vapi (buildVisionRequest b (jsOrStr promptField defaultPrompt)) <;>
    simp [postAnalyze, henc, analyzeImage, hv]

/-- C5 witness: for the PNG-signature upload and prompt `describe`, the
encoder produces the non-empty base64 string `iVBORw0KGgo=` and the
vision client receives the fixed-JPEG data URI built from it. -/
theorem c5_jpeg_data_uri_witness :
    encodeImageToBase64 pngFs "uploads/tmp1" = .ok "iVBORw0KGgo=" ∧
    "iVBORw0KGgo=" ≠ "" ∧
    (postAnalyze okVisionApi pngFs (some { path := "uploads/tmp1" })
        (some "describe") "t").visionCalls =
      [buildVisionRequest "iVBORw0KGgo=" "describe"] ∧
    imageRefs (buildVisionRequest "iVBORw0KGgo=" "describe") =
      ["data:image/jpeg;base64," ++ "iVBORw0KGgo="] :=
  ⟨rfl, by decide,
    (c5_jpeg_data_uri okVisionApi pngFs { path := "uploads/tmp1" }
      (some "describe") "t" "iVBORw0KGgo=" rfl).1,
    (c5_jpeg_data_uri okVisionApi pngFs { path := "uploads/tmp1" }
      (some "describe") "t" "iVBORw0KGgo=" rfl).2⟩

/-- C7: on the vision path, an absent or empty (the only falsy string in
JavaScript, read here for "blank") prompt field makes the dispatched
prompt exactly the fixed default `What's in this image?`, and a
non-empty prompt field is dispatched unchanged. -/
theorem c7_prompt_defaulting (vapi : VisionRequest → Except GroqError Completion)
    (fs : FS) (f : UploadedFile) (now : String) (b : String)
    (henc : encodeImageToBase64 fs f.path = .ok b) :
    defaultPrompt = "What\x27s in this image?" ∧
    (postAnalyze vapi fs (some f) none now).visionCalls =
      [buildVisionRequest b defaultPrompt] ∧
    (postAnalyze vapi fs (some f) (some "") now).visionCalls =
      [buildVisionRequest b defaultPrompt] ∧
    ∀ p : String, p ≠ "" →
      (postAnalyze vapi fs (some f) (some p) now).visionCalls =
        [buildVisionRequest b p] := by
  refine ⟨rfl, ?_, ?_, ?_⟩
  · cases hv : vapi (buildVisionRequest b defaultPrompt) <;>
      simp [postAnalyze, henc, analyzeImage, jsOrStr, hv]
  · cases hv : vapi (buildVisionRequest b defaultPrompt) <;>
      simp [postAnalyze, henc, analyzeImage, jsOrStr, hv]
  · intro p hp
    cases hv : vapi (buildVisionRequest b p) <;>
      simp [postAnalyze, henc, analyzeImage, jsOrStr, hp, hv]

/-- C7 witness: the concrete upload with no prompt field gets the fixed
default, and with prompt `describe` gets `describe` unchanged. -/
theorem c7_prompt_defaulting_witness :
    (postAnalyze okVisionApi pngFs (some { path := "uploads/tmp1" }) none "t").visionCalls =
      [buildVisionRequest "iVBORw0KGgo=" defaultPrompt] ∧
    (postAnalyze okVisionApi pngFs (some { path := "uploads/tmp1" })
        (some "describe") "t").visionCalls =
      [buildVisionRequest "iVBORw0KGgo=" "describe"] :=
  ⟨(c7_prompt_defaulting okVisionApi pngFs { path := "uploads/tmp1" } "t"
      "iVBORw0KGgo=" rfl).2.1,
   (c7_prompt_defaulting okVisionApi pngFs { path := "uploads/tmp1" } "t"
      "iVBORw0KGgo=" rfl).2.2.2 "describe" (by decide)⟩

/-- C6: whenever the endpoint reply has no candidate content — empty
`choices` list, or a first candidate without message content — each
invocation client returns its fixed non-empty placeholder
(`No response generated.` for text, `No analysis generated.` for vision)
rather than an empty result. -/
theorem c6_placeholder_on_no_content (c : Completion)
    (h : c.choices = [] ∨ contentOf c = none) :
    (∀ (capi : ChatRequest → Except GroqError Completion) prompt,
       capi (buildChatRequest prompt) = .ok c →
       generateGroqResponse capi prompt = .ok "No response generated.") ∧
    (∀ (vapi : VisionRequest → Except GroqError Completion) b p,
       vapi (buildVisionRequest b p) = .ok c →
       analyzeImage vapi b p = .ok "No analysis generated.") ∧
    "No response generated." ≠ "" ∧ "No analysis generated." ≠ "" := by
  have hc : contentOf c = none := by
    rcases h with h | h
    · simp [contentOf, h]
    · exact h
  refine ⟨?_, ?_, by decide, by decide⟩
  · intro capi prompt hok
    simp [generateGroqResponse, hok, hc, jsOrStr]
  · intro vapi b p hok
    simp [analyzeImage, hok, hc, jsOrStr]

/-- C6 witness: an endpoint replying with an empty choices list makes the
text client return the placeholder on a concrete prompt. -/
theorem c6_placeholder_on_no_content_witness :
    generateGroqResponse emptyChatApi (JSValue.str "hi") = .ok "No response generated." :=
  (c6_placeholder_on_no_content { choices := [] } (Or.inl rfl)).1
    emptyChatApi (JSValue.str "hi") rfl

/-- C9: the result text of either invocation client is never the empty
string — even a first candidate whose content is present but empty is
replaced by the placeholder — so every 200 response of either pipeline
carries a non-empty `reply`/`analysis`. -/
theorem c9_nonempty_result_invariant :
    (∀ (capi : ChatRequest → Except GroqError Completion) prompt r,
       generateGroqResponse capi prompt = .ok r → r ≠ "") ∧
    (∀ (vapi : VisionRequest → Except GroqError Completion) b p r,
       analyzeImage vapi b p = .ok r → r ≠ "") ∧
    (∀ (capi : ChatRequest → Except GroqError Completion) prompt c,
       capi (buildChatRequest prompt) = .ok c → contentOf c = some "" →
       generateGroqResponse capi prompt = .ok "No response generated.") ∧
    (∀ (vapi : VisionRequest → Except GroqError Completion) b p c,
       vapi (buildVisionRequest b p) = .ok c → contentOf c = some "" →
       analyzeImage vapi b p = .ok "No analysis generated.") ∧
    (∀ (capi : ChatRequest → Except GroqError Completion) body now r ts,
       (postMessage capi body now).response =
         { status := 200, body := .replyBody r ts } → r ≠ "") ∧
    (∀ (vapi : VisionRequest → Except GroqError Completion) fs file promptField now a ts,
       (postAnalyze vapi fs file promptField now).response =
         { status := 200, body := .analysisBody a ts } → a ≠ "") := by
  have hchat : ∀ (capi : ChatRequest → Except GroqError Completion) prompt r,
      generateGroqResponse capi prompt = .ok r → r ≠ "" := by
    intro capi prompt r h
    cases hr : capi (buildChatRequest prompt) with
    | error e => simp [generateGroqResponse, hr] at h
    | ok c =>
      simp [generateGroqResponse, hr] at h
      exact h ▸ jsOrStr_ne_empty (contentOf c) "No response generated." (by decide)
  have hvis : ∀ (vapi : VisionRequest → Except GroqError Completion) b p r,
      analyzeImage vapi b p = .ok r → r ≠ "" := by
    intro vapi b p r h
    cases hr : vapi (buildVisionRequest b p) with
    | error e => simp [analyzeImage, hr] at h
    | ok c =>
      simp [analyzeImage, hr] at h
      exact h ▸ jsOrStr_ne_empty (contentOf c) "No analysis generated." (by decide)
  refine ⟨hchat, hvis, ?_, ?_, ?_, ?_⟩
  · intro capi prompt c hok hct
    simp [generateGroqResponse, hok, hct, jsOrStr]
  · intro vapi b p c hok hct
    simp [analyzeImage, hok, hct, jsOrStr]
  · intro capi body now r ts h
    by_cases htru : truthy (jsLookup body "message") = false
    · simp [postMessage, htru] at h
    · rw [Bool.not_eq_false] at htru
      cases hg : generateGroqResponse capi (jsLookup body "message") with
      | error e => simp [postMessage, htru, hg] at h
      | ok reply =>
        simp [postMessage, htru, hg] at h
        exact h.1 ▸ hchat capi (jsLookup body "message") reply hg
  · intro vapi fs file promptField now a ts h
    cases file with
    | none => simp [postAnalyze] at h
    | some f =>
      cases he : encodeImageToBase64 fs f.path with
      | error e => simp [postAnalyze, he] at h
      | ok b =>
        cases ha : analyzeImage vapi b (jsOrStr promptField defaultPrompt) with
        | error e => simp [postAnalyze, he, ha] at h
        | ok analysis =>
          simp [postAnalyze, he, ha] at h
          exact h.1 ▸ hvis vapi b (jsOrStr promptField defaultPrompt) analysis ha

/-- C9 witness: on a concrete succeeding endpoint the text client's
result is non-empty. -/
theorem c9_nonempty_result_invariant_witness :
    generateGroqResponse okChatApi (JSValue.str "hi") = .ok "hello there" ∧
    "hello there" ≠ "" :=
  ⟨rfl, c9_nonempty_result_invariant.1 okChatApi (JSValue.str "hi") "hello there" rfl⟩

/-- C8: for every readable path the encoder returns the base64 encoding
of the file's entire byte content (losslessly — decoding recovers the
exact bytes), the embedding being a pure function of the filesystem state
(the synchronous read has no interleaving point); an unreadable path
makes the read error propagate unmodified out of the encoder, and the
Request Router maps it to the generic
`500 {error: "Failed to analyze image"}` without invoking the vision
client. -/
theorem c8_encoder_contract :
    (∀ (fs : FS) p bytes, fsRead fs p = some bytes →
       encodeImageToBase64 fs p = .ok (base64Encode bytes)) ∧
    (∀ bytes : List Nat, (∀ b ∈ bytes, b < 256) →
       base64Decode (base64Encode bytes) = some bytes) ∧
    (∀ (fs : FS) p, fsRead fs p = none →
       encodeImageToBase64 fs p = .error (.enoent p)) ∧
    (∀ (vapi : VisionRequest → Except GroqError Completion) (fs : FS)
       (f : UploadedFile) promptField now, fsRead fs f.path = none →
       postAnalyze vapi fs (some f) promptField now =
         { response := { status := 500, body := .errorMsg "Failed to analyze image" }
           fsAfter := fs, encoderCalls := [f.path], visionCalls := [] }) := by
  refine ⟨?_, base64Decode_base64Encode, ?_, ?_⟩
  · intro fs p bytes h
    simp [encodeImageToBase64, readFileSync, h]
  · intro fs p h
    simp [encodeImageToBase64, readFileSync, h]
  · intro vapi fs f promptField now h
    simp [postAnalyze, encodeImageToBase64, readFileSync, h]

/-- C8 witness: the concrete PNG upload round-trips through the encoder,
and a missing file yields the generic vision failure on an untouched
filesystem. -/
theorem c8_encoder_contract_witness :
    encodeImageToBase64 pngFs "uploads/tmp1" = .ok (base64Encode pngBytes) ∧
    base64Decode (base64Encode pngBytes) = some pngBytes ∧
    postAnalyze okVisionApi pngFs (some { path := "uploads/gone" }) none "t" =
      { response := { status := 500, body := .errorMsg "Failed to analyze image" }
        fsAfter := pngFs, encoderCalls := ["uploads/gone"], visionCalls := [] } :=
  ⟨c8_encoder_contract.1 pngFs "uploads/tmp1" pngBytes rfl,
   c8_encoder_contract.2.1 pngBytes (by decide),
   c8_encoder_contract.2.2.2 okVisionApi pngFs { path := "uploads/gone" } none "t" rfl⟩

/-- C1 counterexample: a vision request that passed validation (an image
file was attached and was even encoded successfully) but whose model call
failed is answered with 500 while the temporary upload artifact still
exists on the filesystem — cleanup did not run, refuting "deleted
regardless of whether the encoding step and the vision model call
succeeded or failed". -/
theorem c1_cleanup_counterexample :
    (postAnalyze failVisionApi pngFs (some { path := "uploads/tmp1" }) none "t").response =
      { status := 500, body := .errorMsg "Failed to analyze image" } ∧
    (postAnalyze failVisionApi pngFs (some { path := "uploads/tmp1" }) none "t").fsAfter =
      pngFs ∧
    fsRead (postAnalyze failVisionApi pngFs (some { path := "uploads/tmp1" })
        none "t").fsAfter "uploads/tmp1" = some pngBytes :=
  ⟨rfl, rfl, rfl⟩

/-- C1 amended: the temporary upload artifact is deleted exactly on the
success path — when both the encoding step and the vision model call
succeed, the artifact is gone by the time the 200 response is sent; when
either step fails, control jumps to the catch handler before the unlink
statement, so the artifact is not deleted and the filesystem is left
unchanged. -/
theorem c1_cleanup_on_success_only (vapi : VisionRequest → Except GroqError Completion)
    (fs : FS) (f : UploadedFile) (promptField : Option String) (now : String) :
    ((∃ b a, encodeImageToBase64 fs f.path = .ok b ∧
        analyzeImage vapi b (jsOrStr promptField defaultPrompt) = .ok a) →
      (postAnalyze vapi fs (some f) promptField now).fsAfter = fsUnlink fs f.path ∧
      fsRead (postAnalyze vapi fs (some f) promptField now).fsAfter f.path = none ∧
      (postAnalyze vapi fs (some f) promptField now).response.status = 200) ∧
    ((∃ e, encodeImageToBase64 fs f.path = .error e) →
      (postAnalyze vapi fs (some f) promptField now).fsAfter = fs) ∧
    (∀ b, encodeImageToBase64 fs f.path = .ok b →
      (∃ e, analyzeImage vapi b (jsOrStr promptField defaultPrompt) = .error e) →
      (postAnalyze vapi fs (some f) promptField now).fsAfter = fs) := by
  refine ⟨?_, ?_, ?_⟩
  · rintro ⟨b, a, henc, hana⟩
    refine ⟨by simp [postAnalyze, henc, hana], ?_, by simp [postAnalyze, henc, hana]⟩
    simp only [postAnalyze, henc, hana]
    exact fsRead_fsUnlink fs f.path
  · rintro ⟨e, henc⟩
    simp [postAnalyze, henc]
  · rintro b henc ⟨e, hana⟩
    simp [postAnalyze, henc, hana]

/-- C1 amended witness: on the concrete successful request the artifact
is gone afterwards; on the concrete failing request it survives. -/
theorem c1_cleanup_on_success_only_witness :
    fsRead (postAnalyze okVisionApi pngFs (some { path := "uploads/tmp1" })
        none "t").fsAfter "uploads/tmp1" = none ∧
    (postAnalyze failVisionApi pngFs (some { path := "uploads/tmp1" }) none "t").fsAfter =
      pngFs :=
  ⟨((c1_cleanup_on_success_only okVisionApi pngFs { path := "uploads/tmp1" } none "t").1
      ⟨"iVBORw0KGgo=", "a cat", rfl, rfl⟩).2.1,
   (c1_cleanup_on_success_only failVisionApi pngFs { path := "uploads/tmp1" } none "t").2.2
      "iVBORw0KGgo=" rfl ⟨"Failed to analyze image", rfl⟩⟩
